import Mathlib

/-!
Verification of the Meal Plan Generation & Slot Swap Engine.

This file is a shallow embedding of the core engine of the repository:
`src/lambdas/meals/generatePlan.ts` (Plan Builder), `src/lambdas/meals/updateMeal.ts`
(Slot Swap Engine) and `src/lambdas/shared/spoonacular.ts` (Dietary Aggregator and
suggestion-service client).  JavaScript objects become Lean structures; a field that
in a stored document may be absent, explicitly `null`, or carry a value is embedded
as the three-state type `Fv`.  Calendar dates in `YYYY-MM-DD` strings are represented
by their civil day numbers (the map is injective and monotone), `Math.random()` draws
are threaded in as explicit natural-number parameters, and the external DynamoDB and
Spoonacular collaborators are passed in as explicit inputs; each handler returns,
besides its HTTP response, the exact list of suggestion-service calls it performed
and the exact list of plan documents it wrote.
-/

/-- Three-state field value of a loosely-typed record: missing key, explicit
`null`, or a value.  `cleanMealObject` in `generatePlan.ts` distinguishes the
first two from the third. -/
inductive Fv (α : Type) where
  | absent : Fv α
  | nullv : Fv α
  | val : α → Fv α
deriving Repr, DecidableEq

/-- JavaScript truthiness of a string-valued field: only a present, non-empty
string is truthy (`undefined`, `null` and `""` are all falsy). -/
def Fv.truthyStr : Fv String → Bool
  | .val s => s ≠ ""
  | _ => false

/-- `undefined`/`null` stripped to absent, as `cleanMealObject` does per field. -/
def Fv.clean : Fv α → Fv α
  | .nullv => .absent
  | .absent => .absent
  | .val a => .val a

/-- Character-level lowercase, embedding `String.prototype.toLowerCase` for the
ASCII names this system handles. -/
def strToLower (s : String) : String := ⟨s.data.map Char.toLower⟩

/-- `name.toLowerCase().replace(/\s+/g, '-')`: each maximal run of whitespace
becomes a single dash, all other characters are lowercased.  The boolean tracks
whether the previous character was whitespace. -/
def slugAux : Bool → List Char → List Char
  | _, [] => []
  | prevWs, c :: rest =>
    if c.isWhitespace then
      if prevWs then slugAux true rest else '-' :: slugAux true rest
    else c.toLower :: slugAux false rest

/-- `generateMealId` of `generatePlan.ts` (`Date.now()` passed in as `now`). -/
def generateMealId (mealName : String) (now : Nat) : String :=
  "user-" ++ String.mk (slugAux false mealName.data) ++ "-" ++ toString now

/-- Whether `needle` occurs as a contiguous substring of `hay`
(`String.prototype.includes`). -/
def listPrefixOf : List Char → List Char → Bool
  | [], _ => true
  | _ :: _, [] => false
  | a :: as, b :: bs => a = b && listPrefixOf as bs

/-- Scan for an occurrence of the needle at any position. -/
def listContainsSub (needle : List Char) : List Char → Bool
  | [] => listPrefixOf needle []
  | c :: rest => listPrefixOf needle (c :: rest) || listContainsSub needle rest

/-- `hay.includes(needle)`. -/
def strContains (hay needle : String) : Bool :=
  listContainsSub needle.data hay.data

/-- `err.message?.includes('402')` applied to the message
`Spoonacular API error: <status>` thrown by the Spoonacular client. -/
def apiErrIs402 (status : Nat) : Bool :=
  strContains ("Spoonacular API error: " ++ toString status) "402"

/-! ## Calendar dates

A request date is the string `YYYY-MM-DD`.  `parseYMD` validates it (digits in the
right places, month 1–12, day within the month, Gregorian leap years) and returns
its civil day number, computed with the standard days-from-civil formula (shifted
by 400 years so the arithmetic stays in `Nat`); an invalid string parses to `none`,
matching `new Date(s)` producing an Invalid Date whose `toISOString()` throws. -/

/-- Gregorian leap year. -/
def isLeapYear (y : Nat) : Bool :=
  (y % 4 = 0 && y % 100 ≠ 0) || y % 400 = 0

/-- Days in month `m` of year `y`. -/
def daysInMonth (y m : Nat) : Nat :=
  if m = 2 then (if isLeapYear y then 29 else 28)
  else if m = 4 ∨ m = 6 ∨ m = 9 ∨ m = 11 then 30
  else 31

/-- Civil day number of `y-m-d` (days-from-civil, offset so the result is a `Nat`;
only the injective monotone correspondence matters here). -/
def dayNumber (y m d : Nat) : Nat :=
  let ys := y + 400
  let ya := if m ≤ 2 then ys - 1 else ys
  let era := ya / 400
  let yoe := ya % 400
  let mp := if 2 < m then m - 3 else m + 9
  let doy := (153 * mp + 2) / 5 + (d - 1)
  let doe := yoe * 365 + yoe / 4 - yoe / 100 + doy
  era * 146097 + doe

/-- Digit value of a character. -/
def digitVal (c : Char) : Nat := c.toNat - '0'.toNat

/-- Parse and validate a `YYYY-MM-DD` calendar date, returning its day number. -/
def parseYMD (s : String) : Option Nat :=
  match s.data with
  | [y1, y2, y3, y4, s1, m1, m2, s2, d1, d2] =>
    if s1 = '-' ∧ s2 = '-' ∧
       y1.isDigit ∧ y2.isDigit ∧ y3.isDigit ∧ y4.isDigit ∧
       m1.isDigit ∧ m2.isDigit ∧ d1.isDigit ∧ d2.isDigit then
      let y := ((digitVal y1 * 10 + digitVal y2) * 10 + digitVal y3) * 10 + digitVal y4
      let m := digitVal m1 * 10 + digitVal m2
      let d := digitVal d1 * 10 + digitVal d2
      if 1 ≤ m ∧ m ≤ 12 ∧ 1 ≤ d ∧ d ≤ daysInMonth y m then
        some (dayNumber y m d)
      else none
    else none
  | _ => none

/-! ## Dietary Aggregator (`src/lambdas/shared/spoonacular.ts`) -/

/-- The `dietMap` lookup of `mapDietaryRestrictions` (keys already lowercased). -/
def dietMapLookup (r : String) : Option String :=
  if r = "vegetarian" then some "vegetarian"
  else if r = "vegan" then some "vegan"
  else if r = "gluten-free" then some "gluten free"
  else if r = "dairy-free" then some "dairy free"
  else if r = "keto" then some "ketogenic"
  else if r = "paleo" then some "paleo"
  else none

/-- `mapDietaryRestrictions`: walk the input list in order and return the mapped
token of the first restriction that is a key of `dietMap` (case-insensitively). -/
def mapDietaryRestrictions (restrictions : List String) : Option String :=
  restrictions.findSome? (fun r => dietMapLookup (strToLower r))

/-- `mapAllergiesToExclude`: `allergies.join(',')`. -/
def mapAllergiesToExclude (allergies : List String) : String :=
  joinWith "," allergies
where
  joinWith (sep : String) : List String → String
    | [] => ""
    | [x] => x
    | x :: xs => x ++ sep ++ joinWith sep xs

/-- `exclude || undefined`: an empty exclusion string is dropped. -/
def strOpt (s : String) : Option String := if s = "" then none else some s

/-- Modelled from the spec: "restrictions are reduced to one diet token using a
fixed priority order (vegetarian > vegan > gluten-free > dairy-free > keto >
paleo)" — the token of the highest-priority restriction present in the list,
independent of input order.  Stated only to compare against the source's
`mapDietaryRestrictions`. -/
def specPriorityDiet (restrictions : List String) : Option String :=
  let has := fun k => restrictions.any (fun r => strToLower r = k)
  if has "vegetarian" then some "vegetarian"
  else if has "vegan" then some "vegan"
  else if has "gluten-free" then some "gluten free"
  else if has "dairy-free" then some "dairy free"
  else if has "keto" then some "ketogenic"
  else if has "paleo" then some "paleo"
  else none

/-- JavaScript `Set` insertion: append if not already present (`[...set]`
enumerates in first-insertion order). -/
def addAll (s : List String) (xs : List String) : List String :=
  xs.foldl (fun acc x => if acc.contains x then acc else acc ++ [x]) s

/-- Union of several lists into one `Set`, preserving first-insertion order. -/
def setUnion (groups : List (List String)) : List String :=
  groups.foldl addAll []

/-! ## Data model -/

/-- A Spoonacular recipe, as returned in week-plan batches and
`complexSearch` results (`image` is used only by search results; the empty
string models a falsy/missing `image`). -/
structure Recipe where
  id : Nat
  title : String
  readyInMinutes : Nat
  servings : Nat
  sourceUrl : String
  image : String
deriving Repr, DecidableEq

/-- A week-long suggestion batch: `plan.week[dayName].meals`; a day missing
from the JSON behaves like an empty meal list under optional chaining. -/
structure WeekPlan where
  week : String → List Recipe

/-- Request parameters of `generateMealPlan` (the week-batch call). -/
structure MealPlanReq where
  timeFrame : String
  diet : Option String
  exclude : Option String
deriving Repr, DecidableEq

/-- Request parameters of `searchRecipes` (the single-swap search call). -/
structure SearchReq where
  query : String
  diet : Option String
  excludeIngredients : Option String
  number : Nat
  offset : Nat
  addRecipeInformation : Bool
deriving Repr, DecidableEq

/-- `complexSearch` response; an absent `results` array behaves like `[]`. -/
structure SearchResp where
  results : List Recipe
deriving Repr, DecidableEq

/-- The household `PREFERENCES` item as read from the store; `none` fields model
missing attributes, defaulted at the use site exactly as the source does. -/
structure PrefsItem where
  mealSuggestionMode : Option String
  cookingTime : Option String
  additionalPreferences : Option String
  typicalBreakfast : Option (List String)
  typicalLunch : Option (List String)
  typicalDinner : Option (List String)
  typicalSnacks : Option (List String)
deriving Repr, DecidableEq

/-- A member's own per-meal-type recurring lists (`m.mealPreferences`). -/
structure MealPrefs where
  breakfast : Option (List String)
  lunch : Option (List String)
  dinner : Option (List String)
deriving Repr, DecidableEq

/-- A `MEMBER#` item.  `sameAsAdults` is three-state: the source tests
`m.sameAsAdults !== false` / `=== false`, so only an explicit `false` puts a
member into the separate cohort. -/
structure Member where
  sk : String
  name : String
  sameAsAdults : Fv Bool
  dietaryRestrictions : List String
  allergies : List String
  mealPreferences : Option MealPrefs
deriving Repr, DecidableEq

/-- The requesting user's `PROFILE` item (used by the swap path). -/
structure Profile where
  dietaryRestrictions : List String
  allergies : List String
deriving Repr, DecidableEq

/-- One meal slot object as pushed into the plan's `meals` array.  `date` is the
day number of the slot's `YYYY-MM-DD` string. -/
structure Meal where
  date : Nat
  day : String
  mealType : String
  recipeId : String
  recipeName : String
  recipeImage : Fv String
  readyInMinutes : Fv Nat
  servings : Fv Nat
  sourceUrl : Fv String
  source : String
  isUserMeal : Bool
  forMembers : Fv (List String)
  forMemberId : Fv String
  updatedAt : Fv Nat
  updatedBy : Fv String
deriving Repr, DecidableEq

/-- Placeholder for the (never reached) out-of-bounds index read. -/
def defaultMeal : Meal :=
  ⟨0, "", "", "", "", .absent, .absent, .absent, .absent, "", false, .absent, .absent, .absent, .absent⟩

/-- Placeholder recipe for the (never reached) out-of-bounds pick. -/
def defaultRecipe : Recipe := ⟨0, "", 0, 0, "", ""⟩

/-- `cleanMealObject`: drop `undefined`/`null` attribute values before the
DynamoDB write (only the optional fields can be `null`). -/
def cleanMeal (m : Meal) : Meal :=
  { m with
    recipeImage := m.recipeImage.clean
    readyInMinutes := m.readyInMinutes.clean
    servings := m.servings.clean
    sourceUrl := m.sourceUrl.clean
    forMembers := m.forMembers.clean
    forMemberId := m.forMemberId.clean
    updatedAt := m.updatedAt.clean
    updatedBy := m.updatedBy.clean }

/-- The plan document written to / read from the `MEAL_PLANS_TABLE`.
`endDate` is the day number of the stored `endDate` string; `generatedAt`,
`ttl`, `lastUpdated` carry the millisecond clock value `now`. -/
structure PlanDoc where
  pk : String
  sk : String
  startDate : String
  endDate : Nat
  meals : List Meal
  mealSuggestionMode : String
  generatedBy : String
  generatedAt : Nat
  ttl : Nat
  lastUpdated : Fv Nat
  lastUpdatedBy : Fv String
deriving Repr, DecidableEq

/-- `arr[Math.floor(Math.random() * arr.length)]` with the raw draw `r`
reduced modulo the length; only ever used on non-empty lists. -/
def pickRandom (r : Nat) (arr : List String) : String :=
  arr.getD (r % arr.length) ""

/-- Random pick among candidate recipes. -/
def pickRecipe (r : Nat) (arr : List Recipe) : Recipe :=
  arr.getD (r % arr.length) defaultRecipe

/-- `mealType === 'breakfast' ? 0 : mealType === 'lunch' ? 1 : 2`. -/
def aiMealIndex (mealType : String) : Nat :=
  if mealType = "breakfast" then 0 else if mealType = "lunch" then 1 else 2

/-! ## Plan Builder (`src/lambdas/meals/generatePlan.ts`, the current handler) -/

/-- Everything the generate handler reads: the request, the store items, the
Spoonacular client, the random source (indexed by day, meal type, and slot
owner: `0` = shared, `k+1` = k-th separate-cohort member) and the clock. -/
structure GenInput where
  userId : String
  startDate : String
  householdId : Option String
  prefsItem : Option PrefsItem
  familyMembers : List Member
  api : MealPlanReq → Except Nat WeekPlan
  rng : Nat → Nat → Nat → Nat
  now : Nat

/-- `preferences.mealSuggestionMode || 'ai_and_user'`. -/
def genMode (inp : GenInput) : String :=
  (inp.prefsItem.bind (·.mealSuggestionMode)).getD "ai_and_user"

/-- `preferences.typicalBreakfast || []`. -/
def typicalB (inp : GenInput) : List String :=
  (inp.prefsItem.bind (·.typicalBreakfast)).getD []

/-- `preferences.typicalLunch || []`. -/
def typicalL (inp : GenInput) : List String :=
  (inp.prefsItem.bind (·.typicalLunch)).getD []

/-- `preferences.typicalDinner || []`. -/
def typicalD (inp : GenInput) : List String :=
  (inp.prefsItem.bind (·.typicalDinner)).getD []

/-- `preferences.typicalSnacks || []`. -/
def typicalS (inp : GenInput) : List String :=
  (inp.prefsItem.bind (·.typicalSnacks)).getD []

/-- The household recurring list for a meal type. -/
def typicalFor (inp : GenInput) (mealType : String) : List String :=
  if mealType = "breakfast" then typicalB inp
  else if mealType = "lunch" then typicalL inp
  else if mealType = "dinner" then typicalD inp
  else typicalS inp

/-- `membersWithSameMeals`: `m.sameAsAdults !== false`. -/
def genSameMeals (inp : GenInput) : List Member :=
  inp.familyMembers.filter (fun m => m.sameAsAdults ≠ Fv.val false)

/-- `membersWithDifferentMeals`: `m.sameAsAdults === false`. -/
def genDiffMeals (inp : GenInput) : List Member :=
  inp.familyMembers.filter (fun m => m.sameAsAdults = Fv.val false)

/-- `hasAnyTypicalMeals`: any of the four household typical lists non-empty. -/
def hasAnyTypicalMeals (inp : GenInput) : Prop :=
  0 < (typicalB inp).length ∨ 0 < (typicalL inp).length ∨
  0 < (typicalD inp).length ∨ 0 < (typicalS inp).length

instance (inp : GenInput) : Decidable (hasAnyTypicalMeals inp) := by
  unfold hasAnyTypicalMeals; infer_instance

/-- The shared-cohort week-batch request. -/
def sharedReq (inp : GenInput) : MealPlanReq :=
  { timeFrame := "week"
    diet := mapDietaryRestrictions (setUnion ((genSameMeals inp).map (·.dietaryRestrictions)))
    exclude := strOpt (mapAllergiesToExclude (setUnion ((genSameMeals inp).map (·.allergies)))) }

/-- The separate-cohort ("kid") week-batch request: the union of all
separate-cohort members' own constraints, merged into one batch. -/
def kidReq (inp : GenInput) : MealPlanReq :=
  { timeFrame := "week"
    diet := mapDietaryRestrictions (setUnion ((genDiffMeals inp).map (·.dietaryRestrictions)))
    exclude := strOpt (mapAllergiesToExclude (setUnion ((genDiffMeals inp).map (·.allergies)))) }

/-- The `days` array; the slot labels follow the index, not the actual weekday. -/
def days : List String :=
  ["monday", "tuesday", "wednesday", "thursday", "friday", "saturday", "sunday"]

/-- The `mealTypes` array with its indices. -/
def mealTypesIdx : List (Nat × String) :=
  [(0, "breakfast"), (1, "lunch"), (2, "dinner"), (3, "snacks")]

/-- A slot filled from a household recurring list. -/
def userMealSlot (dateN : Nat) (day mealType mealName : String)
    (forMembers : Fv (List String)) (now : Nat) : Meal :=
  { date := dateN, day := day, mealType := mealType
    recipeId := generateMealId mealName now, recipeName := mealName
    recipeImage := .nullv, readyInMinutes := .nullv, servings := .nullv, sourceUrl := .nullv
    source := "user_preference", isUserMeal := true
    forMembers := forMembers, forMemberId := .absent, updatedAt := .absent, updatedBy := .absent }

/-- A shared slot filled from the external week batch. -/
def aiMealSlot (dateN : Nat) (day mealType : String) (recipe : Recipe)
    (forMembers : Fv (List String)) : Meal :=
  { date := dateN, day := day, mealType := mealType
    recipeId := toString recipe.id, recipeName := recipe.title
    recipeImage := .val ("https://spoonacular.com/recipeImages/" ++ toString recipe.id ++ "-312x231.jpg")
    readyInMinutes := .val recipe.readyInMinutes, servings := .val recipe.servings
    sourceUrl := .val recipe.sourceUrl
    source := "ai_suggest", isUserMeal := false
    forMembers := forMembers, forMemberId := .absent, updatedAt := .absent, updatedBy := .absent }

/-- The shared (adult-cohort) slot for one date and meal type, per mode:
`user_preference` draws from the recurring list or emits nothing; `ai_and_user`
alternates by date-index parity with snacks always preferring the list; any
other mode (`ai_suggest` and unknown strings alike) uses the batch for
non-snacks and the list for snacks. -/
def sharedSlot (mode : String) (dayIdx dateN : Nat) (day mealType : String)
    (userMeals : List String) (aiPlan : Option WeekPlan)
    (forMembers : Fv (List String)) (now r : Nat) : Option Meal :=
  if mode = "user_preference" then
    if 0 < userMeals.length then
      some (userMealSlot dateN day mealType (pickRandom r userMeals) forMembers now)
    else none
  else if mode = "ai_and_user" then
    if mealType = "snacks" then
      if 0 < userMeals.length then
        some (userMealSlot dateN day mealType (pickRandom r userMeals) forMembers now)
      else none
    else if dayIdx % 2 = 0 ∧ 0 < userMeals.length then
      some (userMealSlot dateN day mealType (pickRandom r userMeals) forMembers now)
    else
      match aiPlan with
      | some w => ((w.week day).get? (aiMealIndex mealType)).map
          (fun recipe => aiMealSlot dateN day mealType recipe forMembers)
      | none => none
  else
    if mealType = "snacks" then
      if 0 < userMeals.length then
        some (userMealSlot dateN day mealType (pickRandom r userMeals) forMembers now)
      else none
    else
      match aiPlan with
      | some w => ((w.week day).get? (aiMealIndex mealType)).map
          (fun recipe => aiMealSlot dateN day mealType recipe forMembers)
      | none => none

/-- One separate-cohort member's identity and own recurring lists. -/
structure KidData where
  id : String
  name : String
  mealPreferences : Option MealPrefs
deriving Repr, DecidableEq

/-- `kidMealsForType`: the member's own list for the meal type, `[]` when the
member has none. -/
def kidMealsForType (kid : KidData) (mealType : String) : List String :=
  match kid.mealPreferences with
  | none => []
  | some p =>
    (if mealType = "breakfast" then p.breakfast
     else if mealType = "lunch" then p.lunch
     else p.dinner).getD []

/-- A member-scoped slot filled from a recurring list (`servings: 1`). -/
def kidUserSlot (dateN : Nat) (day mealType : String) (kid : KidData)
    (mealName : String) (now : Nat) : Meal :=
  { date := dateN, day := day, mealType := mealType
    recipeId := "kid-" ++ kid.id ++ "-" ++ generateMealId mealName now
    recipeName := mealName
    recipeImage := .nullv, readyInMinutes := .nullv, servings := .val 1, sourceUrl := .nullv
    source := "user_preference", isUserMeal := true
    forMembers := .val [kid.name], forMemberId := .val kid.id
    updatedAt := .absent, updatedBy := .absent }

/-- A member-scoped slot filled from the second week batch (`servings: 1`). -/
def kidAiSlot (dateN : Nat) (day mealType : String) (kid : KidData)
    (recipe : Recipe) : Meal :=
  { date := dateN, day := day, mealType := mealType
    recipeId := "kid-" ++ kid.id ++ "-" ++ toString recipe.id
    recipeName := recipe.title
    recipeImage := .val ("https://spoonacular.com/recipeImages/" ++ toString recipe.id ++ "-312x231.jpg")
    readyInMinutes := .val recipe.readyInMinutes, servings := .val 1
    sourceUrl := .val recipe.sourceUrl
    source := "ai_suggest", isUserMeal := false
    forMembers := .val [kid.name], forMemberId := .val kid.id
    updatedAt := .absent, updatedBy := .absent }

/-- The member-scoped slot for one date and (non-snack) meal type, per mode,
falling back to the household list when the member has none of their own. -/
def kidSlot (mode : String) (dayIdx dateN : Nat) (day mealType : String)
    (userMeals : List String) (kidAiPlan : Option WeekPlan) (kid : KidData)
    (now r : Nat) : Option Meal :=
  if mode = "user_preference" then
    if 0 < (kidMealsForType kid mealType).length then
      some (kidUserSlot dateN day mealType kid (pickRandom r (kidMealsForType kid mealType)) now)
    else if 0 < userMeals.length then
      some (kidUserSlot dateN day mealType kid (pickRandom r userMeals) now)
    else none
  else if mode = "ai_and_user" then
    if dayIdx % 2 = 0 ∧ 0 < (kidMealsForType kid mealType).length then
      some (kidUserSlot dateN day mealType kid (pickRandom r (kidMealsForType kid mealType)) now)
    else
      match kidAiPlan with
      | some w => ((w.week day).get? (aiMealIndex mealType)).map
          (fun recipe => kidAiSlot dateN day mealType kid recipe)
      | none => none
  else
    match kidAiPlan with
    | some w => ((w.week day).get? (aiMealIndex mealType)).map
        (fun recipe => kidAiSlot dateN day mealType kid recipe)
    | none => none

/-- `kidMemberData`: id from the sort key, name, own lists. -/
def genKids (inp : GenInput) : List KidData :=
  (genDiffMeals inp).map (fun m =>
    ⟨(m.sk.data.drop 7).asString, m.name, m.mealPreferences⟩)

/-- `['Adults', ...membersWithSameMeals.map(m => m.name)]`. -/
def adultMemberNames (inp : GenInput) : List String :=
  "Adults" :: (genSameMeals inp).map (·.name)

/-- `forMembers` on shared slots: the adult names when a separate cohort
exists, else explicit `null`. -/
def genForMembers (inp : GenInput) : Fv (List String) :=
  if 0 < (genDiffMeals inp).length then .val (adultMemberNames inp) else .nullv

/-- The full `meals` array: for each of the 7 dates and each meal type, the
shared slot followed by one member-scoped slot per separate-cohort member
(member-scoped slots are never built for snacks). -/
def buildMeals (inp : GenInput) (mode : String) (startN : Nat)
    (aiPlan kidAiPlan : Option WeekPlan) : List Meal :=
  days.enum.flatMap (fun p =>
    mealTypesIdx.flatMap (fun q =>
      (sharedSlot mode p.1 (startN + p.1) p.2 q.2 (typicalFor inp q.2) aiPlan
        (genForMembers inp) inp.now (inp.rng p.1 q.1 0)).toList
      ++ (if 0 < (genKids inp).length ∧ q.2 ≠ "snacks" then
            (genKids inp).enum.flatMap (fun kq =>
              (kidSlot mode p.1 (startN + p.1) p.2 q.2 (typicalFor inp q.2) kidAiPlan
                kq.2 inp.now (inp.rng p.1 q.1 (kq.1 + 1))).toList)
          else [])))

/-- The handler's HTTP response. -/
inductive GenResp where
  | err : Nat → String → GenResp
  | ok : String → Nat → List Meal → String → GenResp
deriving Repr, DecidableEq

/-- Response, Spoonacular calls performed (in order), plan documents written. -/
structure GenOutcome where
  resp : GenResp
  calls : List MealPlanReq
  writes : List PlanDoc
deriving Repr

/-- The StateError message of the UserOnly-with-no-meals guard. -/
def stateErrMsg : String :=
  "You have \"My Preferences Only\" mode selected but no typical meals saved. Please go to Household Settings and add your typical breakfast, lunch, dinner, or snack options first. Or switch to \"AI Suggestions\" mode."

/-- Missing `startDate` message. -/
def reqStartMsg : String := "startDate is required (YYYY-MM-DD)"

/-- Generic 500 of the generate handler's catch block. -/
def genFailMsg : String := "Failed to generate meal plan"

/-- Quota message of the generate handler. -/
def quotaMsgGen : String :=
  "Daily recipe quota exceeded. Please try again tomorrow or switch to \"My Preferences Only\" mode in Household Settings."

/-- The catch block: a thrown Spoonacular error is reclassified as 429 when its
message contains `402`, else surfaces as the generic 500. -/
def catchApiGen (status : Nat) : GenResp :=
  if apiErrIs402 status then .err 429 quotaMsgGen else .err 500 genFailMsg

/-- Build, clean and persist the plan; a start date that `new Date` could not
parse throws at the first `toISOString()` and surfaces as the generic 500
before any write. -/
def genFinish (inp : GenInput) (hid mode : String) (calls : List MealPlanReq)
    (aiPlan kidAiPlan : Option WeekPlan) : GenOutcome :=
  match parseYMD inp.startDate with
  | none => ⟨.err 500 genFailMsg, calls, []⟩
  | some startN =>
    let allMeals := buildMeals inp mode startN aiPlan kidAiPlan
    ⟨.ok inp.startDate (startN + 6) allMeals mode, calls,
     [{ pk := "HOUSEHOLD#" ++ hid, sk := "PLAN#" ++ inp.startDate
        startDate := inp.startDate, endDate := startN + 6
        meals := allMeals.map cleanMeal, mealSuggestionMode := mode
        generatedBy := inp.userId, generatedAt := inp.now
        ttl := inp.now / 1000 + 7776000
        lastUpdated := .absent, lastUpdatedBy := .absent }]⟩

/-- The generate handler (`handler` of `generatePlan.ts`): validation, the
UserOnly StateError guard, at most two week-batch calls, plan build, one write. -/
def generatePlanHandler (inp : GenInput) : GenOutcome :=
  if inp.startDate = "" then ⟨.err 400 reqStartMsg, [], []⟩
  else
    match inp.householdId with
    | none => ⟨.err 400 "You must be part of a household to generate meal plans", [], []⟩
    | some hid =>
      if genMode inp = "user_preference" ∧ ¬ hasAnyTypicalMeals inp then
        ⟨.err 400 stateErrMsg, [], []⟩
      else if genMode inp = "ai_suggest" ∨ genMode inp = "ai_and_user" then
        match inp.api (sharedReq inp) with
        | .error st => ⟨catchApiGen st, [sharedReq inp], []⟩
        | .ok w1 =>
          if 0 < (genDiffMeals inp).length then
            match inp.api (kidReq inp) with
            | .error st => ⟨catchApiGen st, [sharedReq inp, kidReq inp], []⟩
            | .ok w2 =>
              genFinish inp hid (genMode inp) [sharedReq inp, kidReq inp] (some w1) (some w2)
          else genFinish inp hid (genMode inp) [sharedReq inp] (some w1) none
      else genFinish inp hid (genMode inp) [] none none

/-! ## Slot Swap Engine (`src/lambdas/meals/updateMeal.ts`, lines 1-256) -/

/-- Everything the update handler reads.  `rand` is the draw used for the
alternative pick, `offsetRand` the draw used for the search offset. -/
structure UpdInput where
  userId : String
  startDate : String
  date : String
  mealType : String
  action : String
  customMealName : String
  forMemberId : Option String
  householdId : Option String
  planItem : Option PlanDoc
  prefsItem : Option PrefsItem
  familyMembers : List Member
  userProfile : Option Profile
  search : SearchReq → Except Nat SearchResp
  rand : Nat
  offsetRand : Nat
  now : Nat

/-- `preferences.mealSuggestionMode || 'ai_and_user'` in the swap path. -/
def updMode (inp : UpdInput) : String :=
  (inp.prefsItem.bind (·.mealSuggestionMode)).getD "ai_and_user"

/-- `preferences.typicalBreakfast || []` in the swap path. -/
def updTB (inp : UpdInput) : List String :=
  (inp.prefsItem.bind (·.typicalBreakfast)).getD []

/-- `preferences.typicalLunch || []` in the swap path. -/
def updTL (inp : UpdInput) : List String :=
  (inp.prefsItem.bind (·.typicalLunch)).getD []

/-- `preferences.typicalDinner || []` in the swap path. -/
def updTD (inp : UpdInput) : List String :=
  (inp.prefsItem.bind (·.typicalDinner)).getD []

/-- JavaScript truthiness of the optional `forMemberId` request field. -/
def normFid : Option String → Option String
  | some s => if s = "" then none else some s
  | none => none

/-- The slot lookup: match on date, meal type, and member scoping
(`forMemberId ? m.forMemberId === forMemberId : !m.forMemberId`). -/
def findMealIdx (meals : List Meal) (dateN : Option Nat) (mealType : String)
    (fid : Option String) : Option Nat :=
  meals.findIdx? (fun m =>
    some m.date == dateN && m.mealType == mealType &&
    (match fid with
     | some f => m.forMemberId == Fv.val f
     | none => ! m.forMemberId.truthyStr))

/-- The recurring list the swap path consults: only the breakfast, lunch and
dinner lists; every other meal type (in particular `snacks`) gets `[]`. -/
def swapUserList (mealType : String) (tb tl td : List String) : List String :=
  if mealType = "breakfast" then tb
  else if mealType = "lunch" then tl
  else if mealType = "dinner" then td
  else []

/-- Restrictions aggregated for the swap search: the targeted member's own when
`forMemberId` is given, else all same-as-adults members plus the requesting
user's profile. -/
def swapRestrictions (inp : UpdInput) : List String :=
  let fid := normFid inp.forMemberId
  let base := inp.familyMembers.foldl (fun acc m =>
    match fid with
    | some f => if m.sk = "MEMBER#" ++ f then addAll acc m.dietaryRestrictions else acc
    | none => if m.sameAsAdults ≠ Fv.val false then addAll acc m.dietaryRestrictions else acc) []
  match fid, inp.userProfile with
  | none, some up => addAll base up.dietaryRestrictions
  | _, _ => base

/-- Allergies aggregated for the swap search, same scoping. -/
def swapAllergies (inp : UpdInput) : List String :=
  let fid := normFid inp.forMemberId
  let base := inp.familyMembers.foldl (fun acc m =>
    match fid with
    | some f => if m.sk = "MEMBER#" ++ f then addAll acc m.allergies else acc
    | none => if m.sameAsAdults ≠ Fv.val false then addAll acc m.allergies else acc) []
  match fid, inp.userProfile with
  | none, some up => addAll base up.allergies
  | _, _ => base

/-- The single-meal-type search request: batch size 5, randomized offset. -/
def swapSearchReq (inp : UpdInput) : SearchReq :=
  { query := if inp.mealType = "breakfast" then "breakfast"
             else if inp.mealType = "lunch" then "lunch" else "dinner"
    diet := mapDietaryRestrictions (swapRestrictions inp)
    excludeIngredients := strOpt (mapAllergiesToExclude (swapAllergies inp))
    number := 5
    offset := inp.offsetRand % 50
    addRecipeInformation := true }

/-- `setCustom`'s updated slot: spread of the current slot with the title
overwritten and the recipe fields set to explicit `null`. -/
def customUpdatedMeal (cur : Meal) (name userId : String) (now : Nat) : Meal :=
  { cur with
    recipeId := "custom-" ++ toString now
    recipeName := name
    recipeImage := .nullv, readyInMinutes := .nullv, servings := .nullv, sourceUrl := .nullv
    source := "user_preference", isUserMeal := true
    updatedAt := .val now, updatedBy := .val userId }

/-- The UserOnly swap's updated slot. -/
def swapUserUpdatedMeal (cur : Meal) (newName userId : String) (now : Nat) : Meal :=
  { cur with
    recipeId := "user-" ++ String.mk (slugAux false newName.data) ++ "-" ++ toString now
    recipeName := newName
    recipeImage := .nullv, readyInMinutes := .nullv, servings := .nullv, sourceUrl := .nullv
    source := "user_preference", isUserMeal := true
    updatedAt := .val now, updatedBy := .val userId }

/-- The AI swap's updated slot (recipe image falls back to the Spoonacular
image URL when the result carries none). -/
def swapAiUpdatedMeal (cur : Meal) (r : Recipe) (userId : String) (now : Nat) : Meal :=
  { cur with
    recipeId := toString r.id
    recipeName := r.title
    recipeImage := .val (if r.image ≠ "" then r.image
                         else "https://spoonacular.com/recipeImages/" ++ toString r.id ++ "-312x231.jpg")
    readyInMinutes := .val r.readyInMinutes, servings := .val r.servings
    sourceUrl := .val r.sourceUrl
    source := "ai_suggest", isUserMeal := false
    updatedAt := .val now, updatedBy := .val userId }

/-- The document written back: the whole plan, with the slot list rebuilt and
the audit fields refreshed. -/
def updWrite (plan : PlanDoc) (meals : List Meal) (userId : String) (now : Nat) : PlanDoc :=
  { plan with meals := meals, lastUpdated := .val now, lastUpdatedBy := .val userId }

/-- The update handler's HTTP response. -/
inductive UpdResp where
  | err : Nat → String → UpdResp
  | ok : String → Meal → UpdResp
deriving Repr, DecidableEq

/-- Response, search calls performed, plan documents written. -/
structure UpdOutcome where
  resp : UpdResp
  calls : List SearchReq
  writes : List PlanDoc
deriving Repr, DecidableEq

/-- The UserOnly no-distinct-alternative message. -/
def noOptionsMsg (mealType : String) : String :=
  "No other " ++ mealType ++ " options in your preferences. Add more options in Household Settings or use \"Enter My Own\"."

/-- Quota message of the update handler. -/
def quotaMsgUpd : String :=
  "Daily recipe quota exceeded. Please try again tomorrow or use \"Enter My Own\" to add your custom meal."

/-- The update handler (`handler` of `updateMeal.ts`): validation, plan and
slot lookup, then `custom` / UserOnly swap / AI swap, one write on success. -/
def updateMealHandler (inp : UpdInput) : UpdOutcome :=
  if inp.startDate = "" ∨ inp.date = "" ∨ inp.mealType = "" ∨ inp.action = "" then
    ⟨.err 400 "startDate, date, mealType, and action are required", [], []⟩
  else if inp.action ≠ "swap" ∧ inp.action ≠ "custom" then
    ⟨.err 400 "action must be \"swap\" or \"custom\"", [], []⟩
  else if inp.action = "custom" ∧ inp.customMealName = "" then
    ⟨.err 400 "customMealName is required for custom action", [], []⟩
  else
    match inp.householdId with
    | none => ⟨.err 400 "You must be part of a household", [], []⟩
    | some _ =>
      match inp.planItem with
      | none => ⟨.err 404 "Meal plan not found", [], []⟩
      | some plan =>
        match findMealIdx plan.meals (parseYMD inp.date) inp.mealType (normFid inp.forMemberId) with
        | none => ⟨.err 404 "Meal not found in plan", [], []⟩
        | some i =>
          let cur := plan.meals.getD i defaultMeal
          if inp.action = "custom" then
            let u := customUpdatedMeal cur inp.customMealName inp.userId inp.now
            ⟨.ok "Meal updated with your custom choice" u, [],
             [updWrite plan (plan.meals.set i u) inp.userId inp.now]⟩
          else if updMode inp = "user_preference" then
            let alts := (swapUserList inp.mealType (updTB inp) (updTL inp) (updTD inp)).filter
              (fun m => m ≠ cur.recipeName)
            if alts.length = 0 then
              ⟨.err 404 (noOptionsMsg inp.mealType), [], []⟩
            else
              let u := swapUserUpdatedMeal cur (pickRandom inp.rand alts) inp.userId inp.now
              ⟨.ok "Meal swapped successfully" u, [],
               [updWrite plan (plan.meals.set i u) inp.userId inp.now]⟩
          else
            match inp.search (swapSearchReq inp) with
            | .error st =>
              ⟨if apiErrIs402 st then .err 429 quotaMsgUpd else .err 500 "Failed to update meal",
               [swapSearchReq inp], []⟩
            | .ok sr =>
              if sr.results.length = 0 then
                ⟨.err 404 "No alternative recipes found matching your dietary preferences",
                 [swapSearchReq inp], []⟩
              else
                let alts := sr.results.filter (fun r => toString r.id ≠ cur.recipeId)
                if alts.length = 0 then
                  ⟨.err 404 "No different recipes available", [swapSearchReq inp], []⟩
                else
                  let u := swapAiUpdatedMeal cur (pickRecipe inp.rand alts) inp.userId inp.now
                  ⟨.ok "Meal swapped successfully" u, [swapSearchReq inp],
                   [updWrite plan (plan.meals.set i u) inp.userId inp.now]⟩

/-! ## Concrete instances used by witnesses and counterexamples -/

/-- UserOnly mode, all four household typical lists empty, but one
separate-cohort member with a non-empty own breakfast list. -/
def c1Input : GenInput :=
  { userId := "u1", startDate := "2025-01-06", householdId := some "h1"
    prefsItem := some ⟨some "user_preference", none, none, none, none, none, none⟩
    familyMembers := [⟨"MEMBER#k1", "Jake", .val false, [], [], some ⟨some ["toast"], none, none⟩⟩]
    api := fun _ => .ok ⟨fun _ => []⟩
    rng := fun _ _ _ => 0
    now := 1000 }

/-- UserOnly mode with no recurring meals anywhere. -/
def c1WitInput : GenInput := { c1Input with familyMembers := [] }

/-- A non-empty but unparsable start date in an AI mode with a working
suggestion service. -/
def c4Input : GenInput :=
  { userId := "u1", startDate := "garbage", householdId := some "h1"
    prefsItem := some ⟨some "ai_suggest", none, none, none, none, none, none⟩
    familyMembers := [], api := fun _ => .ok ⟨fun _ => []⟩, rng := fun _ _ _ => 0, now := 0 }

/-- AI-only request whose suggestion call hits the quota (HTTP 402). -/
def c5Input : GenInput :=
  { userId := "u1", startDate := "2025-01-06", householdId := some "h1"
    prefsItem := some ⟨some "ai_suggest", none, none, none, none, none, none⟩
    familyMembers := [], api := fun _ => .error 402, rng := fun _ _ _ => 0, now := 0 }

/-- AI-only request answered with an empty week batch. -/
def c7Input : GenInput :=
  { userId := "u1", startDate := "2025-01-06", householdId := some "h1"
    prefsItem := some ⟨some "ai_suggest", none, none, none, none, none, none⟩
    familyMembers := [], api := fun _ => .ok ⟨fun _ => []⟩, rng := fun _ _ _ => 0, now := 0 }

/-- The document `c7Input` writes. -/
def c7Doc : PlanDoc :=
  { pk := "HOUSEHOLD#h1", sk := "PLAN#2025-01-06", startDate := "2025-01-06"
    endDate := dayNumber 2025 1 6 + 6, meals := [], mealSuggestionMode := "ai_suggest"
    generatedBy := "u1", generatedAt := 0, ttl := 7776000
    lastUpdated := .absent, lastUpdatedBy := .absent }

/-- A batch recipe sitting at the lunch position. -/
def c8Rec : Recipe := ⟨715538, "Lentil Soup", 30, 4, "https://example.org/lentil", ""⟩

/-- A week batch with three meals on every day. -/
def c8Week : WeekPlan := ⟨fun _ => [⟨1, "A", 5, 1, "u", ""⟩, c8Rec, ⟨3, "C", 7, 2, "v", ""⟩]⟩

/-- An external-suggestion dinner slot with full recipe metadata. -/
def c3Slot : Meal :=
  { date := dayNumber 2025 1 6, day := "monday", mealType := "dinner"
    recipeId := "715538", recipeName := "Beef Stew"
    recipeImage := .val "https://spoonacular.com/recipeImages/715538-312x231.jpg"
    readyInMinutes := .val 45, servings := .val 4, sourceUrl := .val "https://example.org/stew"
    source := "ai_suggest", isUserMeal := false
    forMembers := .absent, forMemberId := .absent, updatedAt := .absent, updatedBy := .absent }

/-- A one-slot plan holding `c3Slot`. -/
def c3Plan : PlanDoc :=
  { pk := "HOUSEHOLD#h1", sk := "PLAN#2025-01-06", startDate := "2025-01-06"
    endDate := dayNumber 2025 1 6 + 6, meals := [c3Slot], mealSuggestionMode := "ai_and_user"
    generatedBy := "u1", generatedAt := 0, ttl := 7776000
    lastUpdated := .absent, lastUpdatedBy := .absent }

/-- A `setCustom` request addressing `c3Slot`. -/
def c3Input : UpdInput :=
  { userId := "u2", startDate := "2025-01-06", date := "2025-01-06", mealType := "dinner"
    action := "custom", customMealName := "Grandma Lasagna", forMemberId := none
    householdId := some "h1", planItem := some c3Plan, prefsItem := none
    familyMembers := [], userProfile := none, search := fun _ => .ok ⟨[]⟩
    rand := 0, offsetRand := 0, now := 5000 }

/-- A recurring-list breakfast slot currently holding `eggs`. -/
def c6Slot : Meal :=
  { date := dayNumber 2025 1 6, day := "monday", mealType := "breakfast"
    recipeId := "user-eggs-1", recipeName := "eggs"
    recipeImage := .absent, readyInMinutes := .absent, servings := .absent, sourceUrl := .absent
    source := "user_preference", isUserMeal := true
    forMembers := .absent, forMemberId := .absent, updatedAt := .absent, updatedBy := .absent }

/-- A one-slot plan holding `c6Slot`. -/
def c6Plan : PlanDoc :=
  { pk := "HOUSEHOLD#h1", sk := "PLAN#2025-01-06", startDate := "2025-01-06"
    endDate := dayNumber 2025 1 6 + 6, meals := [c6Slot], mealSuggestionMode := "user_preference"
    generatedBy := "u1", generatedAt := 0, ttl := 7776000
    lastUpdated := .absent, lastUpdatedBy := .absent }

/-- A UserOnly swap on the breakfast slot; the recurring list offers one
distinct alternative (`oatmeal`). -/
def c6Input : UpdInput :=
  { userId := "u2", startDate := "2025-01-06", date := "2025-01-06", mealType := "breakfast"
    action := "swap", customMealName := "", forMemberId := none
    householdId := some "h1", planItem := some c6Plan
    prefsItem := some ⟨some "user_preference", none, none, some ["eggs", "oatmeal"], none, none, none⟩
    familyMembers := [], userProfile := none, search := fun _ => .ok ⟨[]⟩
    rand := 0, offsetRand := 0, now := 9000 }

/-- An external-suggestion lunch slot. -/
def c9Slot : Meal :=
  { date := dayNumber 2025 3 10, day := "monday", mealType := "lunch"
    recipeId := "642583", recipeName := "Tomato Soup"
    recipeImage := .val "https://spoonacular.com/recipeImages/642583-312x231.jpg"
    readyInMinutes := .val 25, servings := .val 2, sourceUrl := .val "https://example.org/soup"
    source := "ai_suggest", isUserMeal := false
    forMembers := .absent, forMemberId := .absent, updatedAt := .absent, updatedBy := .absent }

/-- A one-slot plan holding `c9Slot`. -/
def c9Plan : PlanDoc :=
  { pk := "HOUSEHOLD#h2", sk := "PLAN#2025-03-10", startDate := "2025-03-10"
    endDate := dayNumber 2025 3 10 + 6, meals := [c9Slot], mealSuggestionMode := "ai_and_user"
    generatedBy := "u1", generatedAt := 0, ttl := 7776000
    lastUpdated := .absent, lastUpdatedBy := .absent }

/-- A `setCustom` request addressing `c9Slot`. -/
def c9Input : UpdInput :=
  { userId := "u3", startDate := "2025-03-10", date := "2025-03-10", mealType := "lunch"
    action := "custom", customMealName := "Leftovers", forMemberId := none
    householdId := some "h2", planItem := some c9Plan, prefsItem := none
    familyMembers := [], userProfile := none, search := fun _ => .ok ⟨[]⟩
    rand := 0, offsetRand := 0, now := 7000 }

/-- A snack slot currently holding `crackers`. -/
def c10Slot : Meal :=
  { date := dayNumber 2025 1 6, day := "monday", mealType := "snacks"
    recipeId := "user-crackers-1", recipeName := "crackers"
    recipeImage := .absent, readyInMinutes := .absent, servings := .absent, sourceUrl := .absent
    source := "user_preference", isUserMeal := true
    forMembers := .absent, forMemberId := .absent, updatedAt := .absent, updatedBy := .absent }

/-- A one-slot plan holding `c10Slot`. -/
def c10Plan : PlanDoc :=
  { pk := "HOUSEHOLD#h1", sk := "PLAN#2025-01-06", startDate := "2025-01-06"
    endDate := dayNumber 2025 1 6 + 6, meals := [c10Slot], mealSuggestionMode := "user_preference"
    generatedBy := "u1", generatedAt := 0, ttl := 7776000
    lastUpdated := .absent, lastUpdatedBy := .absent }

/-- A UserOnly swap addressed to the snack slot while the household's
recurring snack list holds three entries, all distinct from `crackers`. -/
def c10Input : UpdInput :=
  { userId := "u2", startDate := "2025-01-06", date := "2025-01-06", mealType := "snacks"
    action := "swap", customMealName := "", forMemberId := none
    householdId := some "h1", planItem := some c10Plan
    prefsItem := some ⟨some "user_preference", none, none, none, none, none,
      some ["chips", "fruit", "yogurt"]⟩
    familyMembers := [], userProfile := none, search := fun _ => .ok ⟨[]⟩
    rand := 0, offsetRand := 0, now := 9000 }

/-! ## Helper lemmas -/

/-- A random pick from a non-empty list is an element of it. -/
theorem pickRandom_mem (r : Nat) (l : List String) (h : l ≠ []) : pickRandom r l ∈ l := by
  unfold pickRandom
  rw [List.getD_eq_getElem?_getD]
  have hlt : r % l.length < l.length := Nat.mod_lt _ (List.length_pos.mpr h)
  rw [List.getElem?_eq_getElem hlt]
  exact List.getElem_mem hlt

/-- Every meal a shared-slot choice emits carries the slot's date. -/
theorem sharedSlot_date (mode : String) (i dN : Nat) (day mt : String)
    (ul : List String) (ap : Option WeekPlan) (fm : Fv (List String)) (now r : Nat)
    (m : Meal) (hm : m ∈ (sharedSlot mode i dN day mt ul ap fm now r).toList) :
    m.date = dN := by
  rw [Option.mem_toList] at hm
  unfold sharedSlot at hm
  split_ifs at hm <;>
    first
      | (cases hm; rfl)
      | (rcases hm with ⟨⟩)
      | (revert hm
         split <;> intro hm
         · rw [Option.mem_def, Option.map_eq_some'] at hm
           obtain ⟨rec, _, hrec⟩ := hm
           rw [← hrec]
           rfl
         · rcases hm with ⟨⟩)

/-- Every meal a member-scoped slot choice emits carries the slot's date. -/
theorem kidSlot_date (mode : String) (i dN : Nat) (day mt : String)
    (ul : List String) (kap : Option WeekPlan) (kid : KidData) (now r : Nat)
    (m : Meal) (hm : m ∈ (kidSlot mode i dN day mt ul kap kid now r).toList) :
    m.date = dN := by
  rw [Option.mem_toList] at hm
  unfold kidSlot at hm
  split_ifs at hm <;>
    first
      | (cases hm; rfl)
      | (rcases hm with ⟨⟩)
      | (revert hm
         split <;> intro hm
         · rw [Option.mem_def, Option.map_eq_some'] at hm
           obtain ⟨rec, _, hrec⟩ := hm
           rw [← hrec]
           rfl
         · rcases hm with ⟨⟩)

/-- Cleaning preserves the slot's date. -/
theorem cleanMeal_date (m : Meal) : (cleanMeal m).date = m.date := rfl

/-- Every meal the builder emits is dated `startN + i` for some day index
`i ≤ 6`. -/
theorem buildMeals_date (inp : GenInput) (mode : String) (startN : Nat)
    (ap kap : Option WeekPlan) (m : Meal)
    (hm : m ∈ buildMeals inp mode startN ap kap) :
    ∃ i ≤ 6, m.date = startN + i := by
  unfold buildMeals at hm
  rw [List.mem_flatMap] at hm
  obtain ⟨p, hp, hm⟩ := hm
  rw [List.mem_flatMap] at hm
  obtain ⟨q, hq, hm⟩ := hm
  have hple : p.1 ≤ 6 := by
    have : ∀ x ∈ days.enum, x.1 ≤ 6 := by decide
    exact this p hp
  refine ⟨p.1, hple, ?_⟩
  rw [List.mem_append] at hm
  rcases hm with hm | hm
  · exact sharedSlot_date _ _ _ _ _ _ _ _ _ _ m hm
  · revert hm
    split <;> intro hm
    · rw [List.mem_flatMap] at hm
      obtain ⟨kq, _, hm⟩ := hm
      exact kidSlot_date _ _ _ _ _ _ _ _ _ _ m hm
    · rcases hm with ⟨⟩

/-- Any document the build-and-write step persists has `endDate = startN + 6`
and only dates within the week. -/
theorem genFinish_writes (inp : GenInput) (hid mode : String) (calls : List MealPlanReq)
    (ap kap : Option WeekPlan) (startN : Nat) (hp : parseYMD inp.startDate = some startN)
    (p : PlanDoc) (hmem : p ∈ (genFinish inp hid mode calls ap kap).writes) :
    p.endDate = startN + 6 ∧ ∀ m ∈ p.meals, startN ≤ m.date ∧ m.date ≤ startN + 6 := by
  unfold genFinish at hmem
  rw [hp] at hmem
  dsimp only at hmem
  rw [List.mem_singleton] at hmem
  subst hmem
  refine ⟨rfl, ?_⟩
  intro m hm
  dsimp only at hm
  rw [List.mem_map] at hm
  obtain ⟨m0, hm0, hcl⟩ := hm
  obtain ⟨i, hi, hdate⟩ := buildMeals_date inp mode startN ap kap m0 hm0
  rw [← hcl, cleanMeal_date, hdate]
  exact ⟨Nat.le_add_right _ _, Nat.add_le_add_left hi _⟩

/-- With an unparsable start date the generate handler never writes. -/
theorem c4_writes_aux (inp : GenInput) (hp : parseYMD inp.startDate = none) :
    (generatePlanHandler inp).writes = [] := by
  unfold generatePlanHandler genFinish
  rw [hp]
  split
  · rfl
  · split
    · rfl
    · split
      · rfl
      · split
        · split
          · rfl
          · split
            · split
              · rfl
              · rfl
            · rfl
        · rfl

/-! ## Claim C1 -/

/-- C1 counterexample: a separate-cohort member has a non-empty own recurring
breakfast list (the household typical lists are all empty), yet the UserOnly
generate still fails with the StateError — refuting the claim that the check
consults all members' recurring lists and does not fire when any is non-empty. -/
theorem c1_counterexample :
    (genKids c1Input).map (fun k => kidMealsForType k "breakfast") = [["toast"]] ∧
    generatePlanHandler c1Input = ⟨.err 400 stateErrMsg, [], []⟩ :=
  ⟨rfl, rfl⟩

/-- C1 (amended): in UserOnly mode the StateError guard looks only at the
household's four typical lists: when all four are empty the generate fails with
the StateError before any suggestion-service call and without a store write;
when any of the four is non-empty this check does not fire — members' own
recurring lists play no part in the decision. -/
theorem c1_amended (inp : GenInput) (hid : String)
    (hs : inp.startDate ≠ "") (hh : inp.householdId = some hid)
    (hm : genMode inp = "user_preference") :
    (¬ hasAnyTypicalMeals inp →
      generatePlanHandler inp = ⟨.err 400 stateErrMsg, [], []⟩) ∧
    (hasAnyTypicalMeals inp →
      (generatePlanHandler inp).resp ≠ GenResp.err 400 stateErrMsg) := by
  unfold generatePlanHandler
  rw [if_neg hs, hh]
  dsimp only
  constructor
  · intro hna
    rw [if_pos ⟨hm, hna⟩]
  · intro hyes
    rw [if_neg (fun hc => hc.2 hyes), if_neg (by rw [hm]; decide)]
    unfold genFinish
    cases hp : parseYMD inp.startDate with
    | none => dsimp only; intro hc; cases hc
    | some startN => dsimp only; intro hc; cases hc

/-- C1 witness: a UserOnly household with no recurring meals anywhere gets the
StateError with no call and no write. -/
theorem c1_amended_witness :
    (¬ hasAnyTypicalMeals c1WitInput →
      generatePlanHandler c1WitInput = ⟨.err 400 stateErrMsg, [], []⟩) ∧
    (hasAnyTypicalMeals c1WitInput →
      (generatePlanHandler c1WitInput).resp ≠ GenResp.err 400 stateErrMsg) :=
  c1_amended c1WitInput "h1" (by decide) rfl rfl

/-! ## Claim C2 -/

/-- C2 counterexample: on the input list `[vegan, vegetarian]` the source's
aggregator returns `vegan` (first match in input order) while the claimed fixed
priority order vegetarian > vegan would return `vegetarian`. -/
theorem c2_counterexample :
    mapDietaryRestrictions ["vegan", "vegetarian"] = some "vegan" ∧
    specPriorityDiet ["vegan", "vegetarian"] = some "vegetarian" ∧
    some "vegan" ≠ some "vegetarian" :=
  ⟨rfl, rfl, by decide⟩

/-- C2 (amended): the aggregator reduces the restriction list to at most one
diet token, but the winner is the first restriction in input-list order whose
lowercase form is one of the six mapped names — not the highest in a fixed
priority order; when no restriction maps, no token is produced. -/
theorem c2_amended (l₁ l₂ : List String) (r d : String)
    (h₁ : ∀ x ∈ l₁, dietMapLookup (strToLower x) = none)
    (h₂ : dietMapLookup (strToLower r) = some d) :
    mapDietaryRestrictions (l₁ ++ r :: l₂) = some d ∧
    ∀ l : List String, (∀ x ∈ l, dietMapLookup (strToLower x) = none) →
      mapDietaryRestrictions l = none := by
  constructor
  · unfold mapDietaryRestrictions
    rw [List.findSome?_append]
    have hnone : List.findSome? (fun x => dietMapLookup (strToLower x)) l₁ = none :=
      List.findSome?_eq_none_iff.mpr h₁
    rw [hnone, List.findSome?_cons, h₂]
    rfl
  · intro l hl
    exact List.findSome?_eq_none_iff.mpr hl

/-- C2 witness: `[spicy, Keto, vegan]` maps to `ketogenic` — the first mapped
restriction in input order, case-insensitively. -/
theorem c2_amended_witness :
    mapDietaryRestrictions (["spicy"] ++ "Keto" :: ["vegan"]) = some "ketogenic" ∧
    ∀ l : List String, (∀ x ∈ l, dietMapLookup (strToLower x) = none) →
      mapDietaryRestrictions l = none :=
  c2_amended ["spicy"] ["vegan"] "Keto" "ketogenic" (by decide) (by decide)

/-! ## Claim C3 -/

/-- C3 counterexample: after a successful `setCustom` the persisted slot's
recipe fields are present with explicit `null` (the update path performs no
`cleanMealObject` pass), refuting the claim that they are absent rather than
present-with-null. -/
theorem c3_counterexample :
    ((updateMealHandler c3Input).writes.map (fun p => p.meals.map
        (fun m => (m.recipeImage, m.readyInMinutes, m.servings, m.sourceUrl)))) =
      [[(Fv.nullv, Fv.nullv, Fv.nullv, Fv.nullv)]] ∧
    (Fv.nullv : Fv Nat) ≠ Fv.absent :=
  ⟨rfl, by decide⟩

/-- C3 (amended): a `setCustom` whose plan and slot exist and whose name is
non-empty always succeeds; the slot's title is overwritten with the literal
name, provenance becomes UserPreference, the user-meal flag is set, updater and
timestamp are recorded, and the image/readyInMinutes/servings/sourceUrl fields
are set to explicit `null` (present with a null value, not removed), regardless
of the slot's prior state. -/
theorem c3_amended (inp : UpdInput) (plan : PlanDoc) (i : Nat) (hid : String)
    (ha : inp.action = "custom") (hn : inp.customMealName ≠ "")
    (h1 : inp.startDate ≠ "") (h2 : inp.date ≠ "") (h3 : inp.mealType ≠ "")
    (hh : inp.householdId = some hid) (hp : inp.planItem = some plan)
    (hf : findMealIdx plan.meals (parseYMD inp.date) inp.mealType (normFid inp.forMemberId) = some i) :
    updateMealHandler inp =
      ⟨.ok "Meal updated with your custom choice"
         (customUpdatedMeal (plan.meals.getD i defaultMeal) inp.customMealName inp.userId inp.now),
       [],
       [updWrite plan (plan.meals.set i
          (customUpdatedMeal (plan.meals.getD i defaultMeal) inp.customMealName inp.userId inp.now))
          inp.userId inp.now]⟩ ∧
    (customUpdatedMeal (plan.meals.getD i defaultMeal) inp.customMealName inp.userId inp.now).recipeName
        = inp.customMealName ∧
    (customUpdatedMeal (plan.meals.getD i defaultMeal) inp.customMealName inp.userId inp.now).source
        = "user_preference" ∧
    (customUpdatedMeal (plan.meals.getD i defaultMeal) inp.customMealName inp.userId inp.now).isUserMeal
        = true ∧
    (customUpdatedMeal (plan.meals.getD i defaultMeal) inp.customMealName inp.userId inp.now).recipeImage
        = .nullv ∧
    (customUpdatedMeal (plan.meals.getD i defaultMeal) inp.customMealName inp.userId inp.now).readyInMinutes
        = .nullv ∧
    (customUpdatedMeal (plan.meals.getD i defaultMeal) inp.customMealName inp.userId inp.now).servings
        = .nullv ∧
    (customUpdatedMeal (plan.meals.getD i defaultMeal) inp.customMealName inp.userId inp.now).sourceUrl
        = .nullv ∧
    (customUpdatedMeal (plan.meals.getD i defaultMeal) inp.customMealName inp.userId inp.now).updatedAt
        = .val inp.now ∧
    (customUpdatedMeal (plan.meals.getD i defaultMeal) inp.customMealName inp.userId inp.now).updatedBy
        = .val inp.userId := by
  refine ⟨?_, rfl, rfl, rfl, rfl, rfl, rfl, rfl, rfl, rfl⟩
  unfold updateMealHandler
  rw [if_neg ?hreq, if_neg (fun hc => hc.2 ha), if_neg (fun hc => hn hc.2), hh]
  case hreq =>
    rintro (h | h | h | h)
    · exact h1 h
    · exact h2 h
    · exact h3 h
    · rw [ha] at h
      exact absurd h (by decide)
  dsimp only
  rw [hp]
  dsimp only
  rw [hf]
  dsimp only
  rw [if_pos ha]

/-- C3 witness: the concrete `setCustom` on an external-suggestion slot
succeeds with exactly the amended field values. -/
theorem c3_amended_witness :
    updateMealHandler c3Input =
      ⟨.ok "Meal updated with your custom choice"
         (customUpdatedMeal (c3Plan.meals.getD 0 defaultMeal) "Grandma Lasagna" "u2" 5000),
       [],
       [updWrite c3Plan (c3Plan.meals.set 0
          (customUpdatedMeal (c3Plan.meals.getD 0 defaultMeal) "Grandma Lasagna" "u2" 5000))
          "u2" 5000]⟩ ∧
    (customUpdatedMeal (c3Plan.meals.getD 0 defaultMeal) "Grandma Lasagna" "u2" 5000).recipeName
        = "Grandma Lasagna" ∧
    (customUpdatedMeal (c3Plan.meals.getD 0 defaultMeal) "Grandma Lasagna" "u2" 5000).source
        = "user_preference" ∧
    (customUpdatedMeal (c3Plan.meals.getD 0 defaultMeal) "Grandma Lasagna" "u2" 5000).isUserMeal
        = true ∧
    (customUpdatedMeal (c3Plan.meals.getD 0 defaultMeal) "Grandma Lasagna" "u2" 5000).recipeImage
        = .nullv ∧
    (customUpdatedMeal (c3Plan.meals.getD 0 defaultMeal) "Grandma Lasagna" "u2" 5000).readyInMinutes
        = .nullv ∧
    (customUpdatedMeal (c3Plan.meals.getD 0 defaultMeal) "Grandma Lasagna" "u2" 5000).servings
        = .nullv ∧
    (customUpdatedMeal (c3Plan.meals.getD 0 defaultMeal) "Grandma Lasagna" "u2" 5000).sourceUrl
        = .nullv ∧
    (customUpdatedMeal (c3Plan.meals.getD 0 defaultMeal) "Grandma Lasagna" "u2" 5000).updatedAt
        = .val 5000 ∧
    (customUpdatedMeal (c3Plan.meals.getD 0 defaultMeal) "Grandma Lasagna" "u2" 5000).updatedBy
        = .val "u2" :=
  c3_amended c3Input c3Plan 0 "h1" rfl (by decide) (by decide) (by decide) (by decide)
    rfl rfl rfl

/-! ## Claim C4 -/

/-- C4 counterexample: with the non-empty malformed start date `garbage` the
generate does not fail with a 400 ValidationError; it performs the external
suggestion call and then fails with the generic 500 — refuting the claim that
every invalid (not merely missing) start date is rejected with ValidationError
before any external call. -/
theorem c4_counterexample :
    parseYMD c4Input.startDate = none ∧
    (generatePlanHandler c4Input).resp = .err 500 genFailMsg ∧
    (generatePlanHandler c4Input).calls = [sharedReq c4Input] :=
  ⟨rfl, rfl, rfl⟩

/-- C4 (amended): only a missing/empty `startDate` is rejected up front with
the 400 ValidationError (before any call or write); any non-empty string passes
that check, and an unparsable one later aborts plan building with the generic
500 — after the suggestion calls in AI modes — though still with no store
write. -/
theorem c4_amended (inp : GenInput) :
    (inp.startDate = "" → generatePlanHandler inp = ⟨.err 400 reqStartMsg, [], []⟩) ∧
    (parseYMD inp.startDate = none → (generatePlanHandler inp).writes = []) ∧
    (∀ hid, inp.startDate ≠ "" → parseYMD inp.startDate = none →
      inp.householdId = some hid →
      ¬ (genMode inp = "user_preference" ∧ ¬ hasAnyTypicalMeals inp) →
      (∀ req st, inp.api req ≠ .error st) →
      (generatePlanHandler inp).resp = .err 500 genFailMsg) := by
  refine ⟨fun hs => ?_, fun hp => c4_writes_aux inp hp, fun hid hs hp hh hstate hapi => ?_⟩
  · unfold generatePlanHandler
    rw [if_pos hs]
  · unfold generatePlanHandler
    rw [if_neg hs, hh]
    dsimp only
    rw [if_neg hstate]
    split
    · cases hok : inp.api (sharedReq inp) with
      | error st => exact absurd hok (hapi _ _)
      | ok w1 =>
        dsimp only
        split
        · cases hok2 : inp.api (kidReq inp) with
          | error st => exact absurd hok2 (hapi _ _)
          | ok w2 =>
            dsimp only
            unfold genFinish
            rw [hp]
        · unfold genFinish
          rw [hp]
    · unfold genFinish
      rw [hp]

/-- C4 witness: the empty start date gets the 400; the `garbage` start date
produces no write and the generic 500. -/
theorem c4_amended_witness :
    generatePlanHandler { c4Input with startDate := "" } = ⟨.err 400 reqStartMsg, [], []⟩ ∧
    (generatePlanHandler c4Input).writes = [] ∧
    (generatePlanHandler c4Input).resp = .err 500 genFailMsg :=
  ⟨(c4_amended _).1 rfl,
   (c4_amended c4Input).2.1 rfl,
   (c4_amended c4Input).2.2 "h1" (by decide) rfl rfl (by decide)
     (fun req st h => Except.noConfusion h)⟩

/-! ## Claim C5 -/

/-- C5: when a week-batch suggestion call fails with the quota signal
(HTTP 402) — whether the shared-cohort call or the separate-cohort call — the
whole generate aborts with the 429 RateLimited response and nothing is written
to the plan store. -/
theorem c5_theorem (inp : GenInput) (hid : String)
    (hs : inp.startDate ≠ "") (hh : inp.householdId = some hid)
    (hm : genMode inp = "ai_suggest" ∨ genMode inp = "ai_and_user") :
    (inp.api (sharedReq inp) = .error 402 →
      generatePlanHandler inp = ⟨.err 429 quotaMsgGen, [sharedReq inp], []⟩) ∧
    (∀ w1, inp.api (sharedReq inp) = .ok w1 → 0 < (genDiffMeals inp).length →
      inp.api (kidReq inp) = .error 402 →
      generatePlanHandler inp = ⟨.err 429 quotaMsgGen, [sharedReq inp, kidReq inp], []⟩) := by
  have hstate : ¬ (genMode inp = "user_preference" ∧ ¬ hasAnyTypicalMeals inp) := by
    intro hc
    rcases hm with h | h <;> rw [h] at hc <;> exact absurd hc.1 (by decide)
  unfold generatePlanHandler
  rw [if_neg hs, hh]
  dsimp only
  rw [if_neg hstate, if_pos hm]
  constructor
  · intro he
    rw [he]
    dsimp only
    rfl
  · intro w1 hok hdiff hkerr
    rw [hok]
    dsimp only
    rw [if_pos hdiff, hkerr]
    dsimp only
    rfl

/-- C5 witness: a concrete AI-only request whose suggestion call answers 402
yields exactly the 429 with one call performed and no write. -/
theorem c5_theorem_witness :
    generatePlanHandler c5Input = ⟨.err 429 quotaMsgGen, [sharedReq c5Input], []⟩ :=
  (c5_theorem c5Input "h1" (by decide) rfl (Or.inl rfl)).1 rfl

/-! ## Claim C6 -/

/-- C6: for a UserOnly swap on an existing slot, when the recurring list the
swap path consults contains an entry distinct from the slot's current name the
swap succeeds with one such distinct entry chosen by the random draw; when no
entry differs (in particular a one-entry list equal to the current title) it
fails with the 404 NotFound and nothing is written. -/
theorem c6_theorem (inp : UpdInput) (plan : PlanDoc) (i : Nat) (hid : String)
    (ha : inp.action = "swap")
    (h1 : inp.startDate ≠ "") (h2 : inp.date ≠ "") (h3 : inp.mealType ≠ "")
    (hh : inp.householdId = some hid) (hp : inp.planItem = some plan)
    (hf : findMealIdx plan.meals (parseYMD inp.date) inp.mealType (normFid inp.forMemberId) = some i)
    (hm : updMode inp = "user_preference") :
    ((swapUserList inp.mealType (updTB inp) (updTL inp) (updTD inp)).filter
        (fun m => m ≠ (plan.meals.getD i defaultMeal).recipeName) = [] →
      updateMealHandler inp = ⟨.err 404 (noOptionsMsg inp.mealType), [], []⟩) ∧
    (∀ alts, (swapUserList inp.mealType (updTB inp) (updTL inp) (updTD inp)).filter
        (fun m => m ≠ (plan.meals.getD i defaultMeal).recipeName) = alts → alts ≠ [] →
      pickRandom inp.rand alts ∈ alts ∧
      pickRandom inp.rand alts ∈ swapUserList inp.mealType (updTB inp) (updTL inp) (updTD inp) ∧
      pickRandom inp.rand alts ≠ (plan.meals.getD i defaultMeal).recipeName ∧
      updateMealHandler inp =
        ⟨.ok "Meal swapped successfully"
           (swapUserUpdatedMeal (plan.meals.getD i defaultMeal) (pickRandom inp.rand alts)
              inp.userId inp.now),
         [],
         [updWrite plan (plan.meals.set i
            (swapUserUpdatedMeal (plan.meals.getD i defaultMeal) (pickRandom inp.rand alts)
               inp.userId inp.now))
            inp.userId inp.now]⟩) := by
  have hred : ∀ G : UpdOutcome → Prop,
      G (if ((swapUserList inp.mealType (updTB inp) (updTL inp) (updTD inp)).filter
            (fun m => m ≠ (plan.meals.getD i defaultMeal).recipeName)).length = 0 then
           ⟨.err 404 (noOptionsMsg inp.mealType), [], []⟩
         else
           ⟨.ok "Meal swapped successfully"
              (swapUserUpdatedMeal (plan.meals.getD i defaultMeal)
                 (pickRandom inp.rand ((swapUserList inp.mealType (updTB inp) (updTL inp) (updTD inp)).filter
                    (fun m => m ≠ (plan.meals.getD i defaultMeal).recipeName)))
                 inp.userId inp.now),
            [],
            [updWrite plan (plan.meals.set i
               (swapUserUpdatedMeal (plan.meals.getD i defaultMeal)
                  (pickRandom inp.rand ((swapUserList inp.mealType (updTB inp) (updTL inp) (updTD inp)).filter
                     (fun m => m ≠ (plan.meals.getD i defaultMeal).recipeName)))
                  inp.userId inp.now))
               inp.userId inp.now]⟩) →
      G (updateMealHandler inp) := by
    intro G hG
    unfold updateMealHandler
    rw [if_neg ?hreq, if_neg (fun hc => hc.1 ha),
        if_neg (fun hc => by rw [ha] at hc; exact absurd hc.1 (by decide)), hh]
    case hreq =>
      rintro (h | h | h | h)
      · exact h1 h
      · exact h2 h
      · exact h3 h
      · rw [ha] at h
        exact absurd h (by decide)
    dsimp only
    rw [hp]
    dsimp only
    rw [hf]
    dsimp only
    rw [if_neg (fun hc => by rw [ha] at hc; exact absurd hc (by decide)), if_pos hm]
    exact hG
  constructor
  · intro hempty
    refine hred (fun o => o = ⟨.err 404 (noOptionsMsg inp.mealType), [], []⟩) ?_
    rw [if_pos (by rw [hempty]; rfl)]
  · intro alts halts hne
    subst halts
    have hmem := pickRandom_mem inp.rand _ hne
    have hfil := List.mem_filter.mp hmem
    refine ⟨hmem, hfil.1, of_decide_eq_true hfil.2, ?_⟩
    refine hred (fun o => o = _) ?_
    rw [if_neg (fun hc => hne (List.length_eq_zero.mp hc))]

/-- C6 witness: swapping the `eggs` breakfast slot with recurring list
`[eggs, oatmeal]` picks `oatmeal` (distinct from the current name) and writes
the plan with only that slot replaced. -/
theorem c6_theorem_witness :
    pickRandom c6Input.rand ["oatmeal"] ∈ ["oatmeal"] ∧
    pickRandom c6Input.rand ["oatmeal"] ∈
      swapUserList c6Input.mealType (updTB c6Input) (updTL c6Input) (updTD c6Input) ∧
    pickRandom c6Input.rand ["oatmeal"] ≠ (c6Plan.meals.getD 0 defaultMeal).recipeName ∧
    updateMealHandler c6Input =
      ⟨.ok "Meal swapped successfully"
         (swapUserUpdatedMeal (c6Plan.meals.getD 0 defaultMeal) (pickRandom c6Input.rand ["oatmeal"])
            "u2" 9000),
       [],
       [updWrite c6Plan (c6Plan.meals.set 0
          (swapUserUpdatedMeal (c6Plan.meals.getD 0 defaultMeal) (pickRandom c6Input.rand ["oatmeal"])
             "u2" 9000))
          "u2" 9000]⟩ :=
  (c6_theorem c6Input c6Plan 0 "h1" rfl (by decide) (by decide) (by decide) rfl rfl rfl rfl).2
    ["oatmeal"] rfl (by decide)

/-! ## Claim C7 -/

/-- C7: for every generate request whose start date parses, every plan document
written has `endDate = startDate + 6` days and every slot's date inside the
closed interval `[startDate, startDate + 6]`. -/
theorem c7_theorem (inp : GenInput) (startN : Nat)
    (hp : parseYMD inp.startDate = some startN) :
    ∀ p ∈ (generatePlanHandler inp).writes,
      p.endDate = startN + 6 ∧ ∀ m ∈ p.meals, startN ≤ m.date ∧ m.date ≤ startN + 6 := by
  intro p hmem
  unfold generatePlanHandler at hmem
  split at hmem
  · rcases hmem with ⟨⟩
  · split at hmem
    · rcases hmem with ⟨⟩
    · split at hmem
      · rcases hmem with ⟨⟩
      · split at hmem
        · split at hmem
          · rcases hmem with ⟨⟩
          · split at hmem
            · split at hmem
              · rcases hmem with ⟨⟩
              · exact genFinish_writes _ _ _ _ _ _ _ hp _ hmem
            · exact genFinish_writes _ _ _ _ _ _ _ hp _ hmem
        · exact genFinish_writes _ _ _ _ _ _ _ hp _ hmem

/-- C7 witness: the concrete generated document has
`endDate = dayNumber 2025-01-06 + 6`. -/
theorem c7_theorem_witness :
    c7Doc.endDate = dayNumber 2025 1 6 + 6 ∧
    (generatePlanHandler c7Input).writes = [c7Doc] :=
  ⟨(c7_theorem c7Input (dayNumber 2025 1 6) rfl c7Doc
      (by rw [show (generatePlanHandler c7Input).writes = [c7Doc] from rfl]
          exact List.mem_singleton_self _)).1,
   rfl⟩

/-! ## Claim C8 -/

/-- C8: in Hybrid mode (`ai_and_user`) the shared non-snack slot is a
deterministic function of date-index parity and list emptiness: an even index
with a non-empty recurring list yields a UserPreference slot; an odd index, or
an even index with an empty list, takes the week batch at the fixed position
breakfast=0 / lunch=1 / dinner=2 with provenance ExternalSuggestion, and is
absent exactly when that batch position is empty. -/
theorem c8_theorem (i dN : Nat) (day mt : String) (ul : List String) (w : WeekPlan)
    (fm : Fv (List String)) (now r : Nat)
    (hmt : mt = "breakfast" ∨ mt = "lunch" ∨ mt = "dinner") :
    (aiMealIndex "breakfast" = 0 ∧ aiMealIndex "lunch" = 1 ∧ aiMealIndex "dinner" = 2) ∧
    (i % 2 = 0 → 0 < ul.length →
      sharedSlot "ai_and_user" i dN day mt ul (some w) fm now r =
        some (userMealSlot dN day mt (pickRandom r ul) fm now) ∧
      (userMealSlot dN day mt (pickRandom r ul) fm now).source = "user_preference") ∧
    ((i % 2 = 1 ∨ ul = []) →
      sharedSlot "ai_and_user" i dN day mt ul (some w) fm now r =
        ((w.week day).get? (aiMealIndex mt)).map (fun rec => aiMealSlot dN day mt rec fm) ∧
      ∀ rec, (aiMealSlot dN day mt rec fm).source = "ai_suggest") := by
  have hsnack : mt ≠ "snacks" := by
    rcases hmt with h | h | h <;> rw [h] <;> decide
  refine ⟨⟨rfl, rfl, rfl⟩, ?_, ?_⟩
  · intro hev hul
    unfold sharedSlot
    rw [if_neg (by decide : ¬("ai_and_user" = "user_preference")),
        if_pos rfl, if_neg hsnack, if_pos ⟨hev, hul⟩]
    exact ⟨rfl, rfl⟩
  · intro hodd
    unfold sharedSlot
    rw [if_neg (by decide : ¬("ai_and_user" = "user_preference")),
        if_pos rfl, if_neg hsnack, if_neg ?_]
    · exact ⟨rfl, fun _ => rfl⟩
    · rintro ⟨hev, hul⟩
      rcases hodd with h | h
      · rw [hev] at h
        exact absurd h (by decide)
      · rw [h] at hul
        exact absurd hul (by decide)

/-- C8 witness: at the odd date index 1 a Hybrid lunch slot is taken from batch
position 1 with provenance ExternalSuggestion even though the recurring list is
non-empty. -/
theorem c8_theorem_witness :
    sharedSlot "ai_and_user" 1 100 "monday" "lunch" ["x"] (some c8Week) Fv.nullv 5 0 =
      some (aiMealSlot 100 "monday" "lunch" c8Rec Fv.nullv) ∧
    (aiMealSlot 100 "monday" "lunch" c8Rec Fv.nullv).source = "ai_suggest" := by
  have h := (c8_theorem 1 100 "monday" "lunch" ["x"] c8Week Fv.nullv 5 0
      (Or.inr (Or.inl rfl))).2.2 (Or.inl rfl)
  exact ⟨by rw [h.1]; rfl, h.2 c8Rec⟩

/-! ## Claim C9 -/

/-- C9: whenever a swap or setCustom writes at all, it writes exactly one
document: the original plan with the slot at the matched
(date, mealType, memberId-presence) index replaced, every other slot unchanged
at its original position, and the plan's identity fields (household key, sort
key, startDate, endDate, generation mode, generatedBy, generatedAt) preserved. -/
theorem c9_theorem (inp : UpdInput) (plan : PlanDoc)
    (hp : inp.planItem = some plan)
    (hw : (updateMealHandler inp).writes ≠ []) :
    ∃ i u, findMealIdx plan.meals (parseYMD inp.date) inp.mealType (normFid inp.forMemberId) = some i ∧
      (updateMealHandler inp).writes = [updWrite plan (plan.meals.set i u) inp.userId inp.now] ∧
      (∀ j, j ≠ i → (plan.meals.set i u)[j]? = plan.meals[j]?) ∧
      (updWrite plan (plan.meals.set i u) inp.userId inp.now).pk = plan.pk ∧
      (updWrite plan (plan.meals.set i u) inp.userId inp.now).sk = plan.sk ∧
      (updWrite plan (plan.meals.set i u) inp.userId inp.now).startDate = plan.startDate ∧
      (updWrite plan (plan.meals.set i u) inp.userId inp.now).endDate = plan.endDate ∧
      (updWrite plan (plan.meals.set i u) inp.userId inp.now).mealSuggestionMode = plan.mealSuggestionMode ∧
      (updWrite plan (plan.meals.set i u) inp.userId inp.now).generatedBy = plan.generatedBy ∧
      (updWrite plan (plan.meals.set i u) inp.userId inp.now).generatedAt = plan.generatedAt := by
  revert hw
  unfold updateMealHandler
  split
  · exact fun hw => absurd rfl hw
  · split
    · exact fun hw => absurd rfl hw
    · split
      · exact fun hw => absurd rfl hw
      · split
        · exact fun hw => absurd rfl hw
        · rename_i hhid
          split
          · rename_i heq
            rw [hp] at heq
            cases heq
          · rename_i plan2 heq
            rw [hp] at heq
            injection heq with heq
            subst heq
            split
            · exact fun hw => absurd rfl hw
            · rename_i i hfind
              split
              · intro _
                exact ⟨i, _, hfind, rfl, fun j hj => List.getElem?_set_ne (Ne.symm hj),
                       rfl, rfl, rfl, rfl, rfl, rfl, rfl⟩
              · split
                · dsimp only
                  split
                  · exact fun hw => absurd rfl hw
                  · intro _
                    exact ⟨i, _, hfind, rfl, fun j hj => List.getElem?_set_ne (Ne.symm hj),
                           rfl, rfl, rfl, rfl, rfl, rfl, rfl⟩
                · split
                  · exact fun hw => absurd rfl hw
                  · split
                    · exact fun hw => absurd rfl hw
                    · dsimp only
                      split
                      · exact fun hw => absurd rfl hw
                      · intro _
                        exact ⟨i, _, hfind, rfl, fun j hj => List.getElem?_set_ne (Ne.symm hj),
                               rfl, rfl, rfl, rfl, rfl, rfl, rfl⟩

/-- C9 witness: the concrete `setCustom` writes exactly one document — the
plan with slot 0 replaced and its identity fields intact. -/
theorem c9_theorem_witness :
    ∃ i u, findMealIdx c9Plan.meals (parseYMD c9Input.date) c9Input.mealType
        (normFid c9Input.forMemberId) = some i ∧
      (updateMealHandler c9Input).writes = [updWrite c9Plan (c9Plan.meals.set i u) c9Input.userId c9Input.now] ∧
      (∀ j, j ≠ i → (c9Plan.meals.set i u)[j]? = c9Plan.meals[j]?) ∧
      (updWrite c9Plan (c9Plan.meals.set i u) c9Input.userId c9Input.now).pk = c9Plan.pk ∧
      (updWrite c9Plan (c9Plan.meals.set i u) c9Input.userId c9Input.now).sk = c9Plan.sk ∧
      (updWrite c9Plan (c9Plan.meals.set i u) c9Input.userId c9Input.now).startDate = c9Plan.startDate ∧
      (updWrite c9Plan (c9Plan.meals.set i u) c9Input.userId c9Input.now).endDate = c9Plan.endDate ∧
      (updWrite c9Plan (c9Plan.meals.set i u) c9Input.userId c9Input.now).mealSuggestionMode = c9Plan.mealSuggestionMode ∧
      (updWrite c9Plan (c9Plan.meals.set i u) c9Input.userId c9Input.now).generatedBy = c9Plan.generatedBy ∧
      (updWrite c9Plan (c9Plan.meals.set i u) c9Input.userId c9Input.now).generatedAt = c9Plan.generatedAt :=
  c9_theorem c9Input c9Plan rfl
    (by
      have h : (updateMealHandler c9Input).writes =
          [updWrite c9Plan (c9Plan.meals.set 0
             (customUpdatedMeal (c9Plan.meals.getD 0 defaultMeal) "Leftovers" "u3" 7000))
             "u3" 7000] := rfl
      rw [h]
      exact List.cons_ne_nil _ _)

/-! ## Claim C10 -/

/-- C10: a UserOnly swap addressed to a snack slot always returns the 404
NotFound with no write, whatever the household's recurring snack list holds,
because the swap path consults only the breakfast, lunch and dinner lists
(`swapUserList` is empty for `snacks`). -/
theorem c10_theorem (inp : UpdInput) (plan : PlanDoc) (i : Nat) (hid : String)
    (ha : inp.action = "swap") (hmt : inp.mealType = "snacks")
    (h1 : inp.startDate ≠ "") (h2 : inp.date ≠ "")
    (hh : inp.householdId = some hid) (hp : inp.planItem = some plan)
    (hf : findMealIdx plan.meals (parseYMD inp.date) inp.mealType (normFid inp.forMemberId) = some i)
    (hm : updMode inp = "user_preference") :
    swapUserList inp.mealType (updTB inp) (updTL inp) (updTD inp) = [] ∧
    updateMealHandler inp = ⟨.err 404 (noOptionsMsg inp.mealType), [], []⟩ := by
  have hsl : swapUserList inp.mealType (updTB inp) (updTL inp) (updTD inp) = [] := by
    rw [hmt]
    rfl
  refine ⟨hsl, ?_⟩
  unfold updateMealHandler
  rw [if_neg ?hreq, if_neg (fun hc => hc.1 ha),
      if_neg (fun hc => by rw [ha] at hc; exact absurd hc.1 (by decide)), hh]
  case hreq =>
    rintro (h | h | h | h)
    · exact h1 h
    · exact h2 h
    · rw [hmt] at h
      exact absurd h (by decide)
    · rw [ha] at h
      exact absurd h (by decide)
  dsimp only
  rw [hp]
  dsimp only
  rw [hf]
  dsimp only
  rw [if_neg (fun hc => by rw [ha] at hc; exact absurd hc (by decide)), if_pos hm,
      if_pos (by rw [hsl]; rfl)]

/-- C10 witness: with a three-entry recurring snack list all distinct from the
slot's current name, the snack swap still returns the 404 and writes nothing. -/
theorem c10_theorem_witness :
    c10Input.prefsItem = some ⟨some "user_preference", none, none, none, none, none,
      some ["chips", "fruit", "yogurt"]⟩ ∧
    swapUserList c10Input.mealType (updTB c10Input) (updTL c10Input) (updTD c10Input) = [] ∧
    updateMealHandler c10Input = ⟨.err 404 (noOptionsMsg "snacks"), [], []⟩ :=
  ⟨rfl,
   (c10_theorem c10Input c10Plan 0 "h1" rfl rfl (by decide) (by decide) rfl rfl rfl rfl).1,
   (c10_theorem c10Input c10Plan 0 "h1" rfl rfl (by decide) (by decide) rfl rfl rfl rfl).2⟩
